import Mathlib

/-!
Verification of the knowledge-base refresh pipeline of the RMIT chatbot
(`src/app.py`): content deduplication (`DatabaseManager.save_knowledge_item`),
staleness scheduling (`should_refresh_knowledge`), sitemap resolution and URL
filtering (`RMITWebScraper.get_sitemap_urls`, `_filter_urls`,
`_get_fallback_urls`), page scraping (`RMITWebScraper.scrape_page`), the
refresh loop (`refresh_knowledge_base_no_cache`) and the read path
(`load_enhanced_knowledge_base`).

Modelling conventions:
* the SQLite `knowledge_base` table is a `List KBEntry` in insertion order;
  `is_active` defaults to `true` on insert exactly as the schema's
  `is_active BOOLEAN DEFAULT 1`;
* the MD5 digest is an arbitrary deterministic function
  `hashFn : String → String` (every theorem below is universally quantified
  over it, so nothing depends on properties of MD5 beyond determinism);
* `uuid.uuid4()` and `CURRENT_TIMESTAMP` are external sources of fresh data,
  modelled as supplies `idOf : Nat → String` and `tsOf : Nat → Int` indexed by
  the loop step; timestamps are integers (seconds);
* `requests.get` plus the BeautifulSoup extraction is an oracle
  `fetch : String → Except FetchErr (String × String)` giving either the
  extracted (title, content) pair or the exception that the blanket
  `except` handler of `scrape_page` would catch;
* Python's `keyword in url.lower()` test is `strIncl keyword (lower url)`.
-/

/-- Python's `str.lower()` restricted to ASCII, which is all the code's URLs
and keywords use. -/
def lower (s : String) : String := ⟨s.data.map Char.toLower⟩

/-- Python's substring test `needle in haystack`. -/
def strIncl (needle haystack : String) : Bool :=
  (List.range (haystack.data.length + 1)).any
    (fun i => needle.data.isPrefixOf (haystack.data.drop i))

/-- One row of the `knowledge_base` table (`init_database`, app.py:85-96). -/
structure KBEntry where
  kb_id : String
  source_type : String
  source_url : String
  title : String
  content : String
  last_updated : Int
  content_hash : String
  is_active : Bool
deriving DecidableEq

/-- The duplicate check of `save_knowledge_item` (app.py:185-188):
`SELECT kb_id FROM knowledge_base WHERE content_hash = ? AND is_active = 1`
returned a row. -/
def hasActiveHash (store : List KBEntry) (h : String) : Bool :=
  store.any (fun e => (e.content_hash == h) && e.is_active)

/-- `DatabaseManager.save_knowledge_item` (app.py:175-201).  Computes the
content hash, returns `"duplicate"` without writing when an active row with
the same hash exists, otherwise inserts a fresh active row and returns its
new `kb_id`. -/
def save_knowledge_item (hashFn : String → String) (kb_id : String) (ts : Int)
    (source_type source_url title content : String) (store : List KBEntry) :
    String × List KBEntry :=
  let content_hash := hashFn content
  if hasActiveHash store content_hash then
    ("duplicate", store)
  else
    (kb_id,
     store ++ [{ kb_id := kb_id, source_type := source_type,
                 source_url := source_url, title := title, content := content,
                 last_updated := ts, content_hash := content_hash,
                 is_active := true }])

/-- One call to `save_knowledge_item`: its fresh id and timestamp and its
payload arguments. -/
structure SaveReq where
  kb_id : String
  ts : Int
  source_type : String
  source_url : String
  title : String
  content : String

/-- A sequence of `save_knowledge_item` calls applied to a store. -/
def applySaves (hashFn : String → String) (reqs : List SaveReq)
    (store : List KBEntry) : List KBEntry :=
  reqs.foldl
    (fun s r =>
      (save_knowledge_item hashFn r.kb_id r.ts r.source_type r.source_url
        r.title r.content s).2) store

/-- The store invariant: no two (positionally distinct) rows are both active
with the same content hash. -/
def UniqueActiveHash (store : List KBEntry) : Prop :=
  List.Pairwise
    (fun a b =>
      ¬(a.is_active = true ∧ b.is_active = true ∧ a.content_hash = b.content_hash))
    store

/-- One dict of the list returned by `get_knowledge_base` (app.py:203-225). -/
structure KBItem where
  source_type : String
  source_url : String
  title : String
  content : String
  last_updated : Int
deriving DecidableEq

/-- Insertion step of the model of SQL `ORDER BY last_updated DESC`. -/
def insertDesc (e : KBEntry) : List KBEntry → List KBEntry
  | [] => [e]
  | x :: xs =>
    if e.last_updated ≥ x.last_updated then e :: x :: xs else x :: insertDesc e xs

/-- Sorting model of SQL `ORDER BY last_updated DESC`. -/
def sortDesc : List KBEntry → List KBEntry
  | [] => []
  | x :: xs => insertDesc x (sortDesc xs)

/-- `DatabaseManager.get_knowledge_base` (app.py:203-225): active rows,
newest first, first `limit` of them, projected to the returned dict. -/
def get_knowledge_base (store : List KBEntry) (limit : Nat) : List KBItem :=
  ((sortDesc (store.filter (fun e => e.is_active))).take limit).map
    (fun e => { source_type := e.source_type, source_url := e.source_url,
                title := e.title, content := e.content,
                last_updated := e.last_updated })

/-- A raw `last_updated` value as read back from SQLite: either a text that
one of the two parsing attempts of `should_refresh_knowledge`
(`datetime.fromisoformat`, then `strptime '%Y-%m-%d %H:%M:%S'`) turns into a
time `t`, or a text both attempts reject. -/
inductive RawTime
  | parsed (t : Int)
  | garbage
deriving DecidableEq

/-- `should_refresh_knowledge` (app.py:454-484).  Its input is the outcome of
`SELECT MAX(last_updated) FROM knowledge_base WHERE is_active = 1`:
`Except.error` when connecting or querying raised (the outer `except` returns
`True`), `.ok none` when the MAX over an empty active set is NULL
(`not result[0]`), `.ok (some v)` otherwise; the staleness threshold is
`timedelta(hours=6)` under a strict `>`. -/
def should_refresh_knowledge (query : Except Unit (Option RawTime))
    (now : Int) : Bool :=
  match query with
  | .error _ => true
  | .ok none => true
  | .ok (some .garbage) => true
  | .ok (some (.parsed last_updated)) => decide (now - last_updated > 6 * 3600)

/-- The exception classes `requests.get(...)` / `raise_for_status()` can
raise, as far as the code's callers could distinguish them; `msg` stands for
`str(e)`. -/
inductive FetchErr
  | httpStatus (code : Nat)
  | timeout
  | connection
  | dns
deriving DecidableEq

/-- Stand-in for `str(e)` of each exception class. -/
def FetchErr.msg : FetchErr → String
  | .httpStatus code => toString code ++ " Error for url"
  | .timeout => "Read timed out"
  | .connection => "Connection aborted"
  | .dns => "Failed to resolve hostname"

/-- The dict returned by `RMITWebScraper.scrape_page` (app.py:339-394),
minus the unused `scraped_at` field. -/
structure PageData where
  url : String
  title : String
  content : String
  success : Bool
deriving DecidableEq

/-- `RMITWebScraper.scrape_page` (app.py:339-394).  The fetch-and-extract
pipeline (requests + BeautifulSoup tag stripping + the two regex
normalisations) is the oracle `fetch`; on any exception the blanket handler
returns a `success = False` dict embedding `str(e)` in the title and content
strings. -/
def scrape_page (fetch : String → Except FetchErr (String × String))
    (url : String) : PageData :=
  match fetch url with
  | .ok tc => { url := url, title := tc.1, content := tc.2, success := true }
  | .error e =>
    { url := url, title := "Error scraping " ++ url,
      content := "Failed to scrape: " ++ e.msg, success := false }

/-- The default keyword list of `get_sitemap_urls` / `_filter_urls`
(app.py:257-260, 308-311). -/
def default_keywords : List String :=
  ["student", "enrol", "course", "program", "study",
   "academic", "fee", "deadline", "campus", "international"]

/-- `RMITWebScraper._get_fallback_urls` (app.py:324-337). -/
def _get_fallback_urls : List String :=
  ["https://www.rmit.edu.au/study-with-us",
   "https://www.rmit.edu.au/enrolment",
   "https://www.rmit.edu.au/students/my-course/important-dates",
   "https://www.rmit.edu.au/students/support-services/study-support",
   "https://www.rmit.edu.au/students/support-services/academic-support",
   "https://www.rmit.edu.au/study-with-us/levels-of-study/undergraduate-study",
   "https://www.rmit.edu.au/study-with-us/levels-of-study/postgraduate-study",
   "https://www.rmit.edu.au/students/student-essentials/fees-and-payments",
   "https://www.rmit.edu.au/students/student-essentials/important-dates",
   "https://www.rmit.edu.au/about/schools-colleges"]

/-- `RMITWebScraper._filter_urls` (app.py:305-322).  The empty keyword list
models passing `None` (the `if not keywords` default); the fold mirrors the
`for url in all_urls` accumulation; `filtered_urls[:10]` is `take 10`; an
empty filter result falls back to `_get_fallback_urls`. -/
def _filter_urls (all_urls keywords : List String) : List String :=
  let kws := if keywords.isEmpty then default_keywords else keywords
  let filtered_urls :=
    all_urls.foldl
      (fun acc url =>
        if kws.any (fun k => strIncl k (lower url)) then acc ++ [url] else acc)
      []
  if filtered_urls.isEmpty then _get_fallback_urls else filtered_urls.take 10

/-- `RMITWebScraper.get_sitemap_urls` (app.py:239-303).  The whole
fetch-and-parse chain (requests, `raise_for_status`, ElementTree with its
namespace attempts, and the two regex extractions) is the input: `.error e`
when the request raised or `raise_for_status` rejected the status (the outer
`except` silently returns the fallback list), `.ok all_urls` with the list
the parsing chain extracted (possibly empty) otherwise. -/
def get_sitemap_urls (fetch : Except FetchErr (List String))
    (keywords : List String) : List String :=
  match fetch with
  | .error _ => _get_fallback_urls
  | .ok all_urls => _filter_urls all_urls keywords

/-- The body of the per-URL loop of `refresh_knowledge_base_no_cache`
(app.py:497-515): scrape, gate on `page_data['success'] and
len(page_data['content']) > 100`, and save.  Returns the new store and
`some result` when `save_knowledge_item` was called with result `result`,
`none` when the page was skipped. -/
def process_url (hashFn : String → String) (scrape : String → PageData)
    (kb_id : String) (ts : Int) (url : String) (store : List KBEntry) :
    List KBEntry × Option String :=
  let page := scrape url
  if page.success = true ∧ page.content.length > 100 then
    let r := save_knowledge_item hashFn kb_id ts "web" page.url page.title
      page.content store
    (r.2, some r.1)
  else
    (store, none)

/-- The aggregate outcome of one refresh run.  The code keeps only
`success_count` (= `itemsAdded`, incremented iff the save result differs from
`"duplicate"`, app.py:511-512); `urlsConsidered`, `urlsSucceeded`,
`itemsDuplicate` and `errors` are ghost observables of the same iteration —
the number of URLs iterated, the pages that passed the gate, the saves that
returned `"duplicate"`, and the URLs skipped by the gate, in order. -/
structure RefreshOutcome where
  urlsConsidered : Nat
  urlsSucceeded : Nat
  itemsAdded : Nat
  itemsDuplicate : Nat
  errors : List String
deriving DecidableEq

/-- The `for url in urls` loop of `refresh_knowledge_base_no_cache`
(app.py:497-515), with the step index `i` feeding the id/timestamp supplies
and the ghost tallies of `RefreshOutcome`.  A skipped page (gate false, the
code's silent `continue`) only extends the ghost error list; a save result
equal to `"duplicate"` leaves `success_count` unchanged. -/
def refresh_loop (hashFn : String → String) (scrape : String → PageData)
    (idOf : Nat → String) (tsOf : Nat → Int) :
    Nat → List String → List KBEntry → Nat → Nat → List String →
    List KBEntry × RefreshOutcome
  | i, [], store, success_count, dup_count, errs =>
    (store, { urlsConsidered := i, urlsSucceeded := success_count + dup_count,
              itemsAdded := success_count, itemsDuplicate := dup_count,
              errors := errs })
  | i, url :: rest, store, success_count, dup_count, errs =>
    let r := process_url hashFn scrape (idOf i) (tsOf i) url store
    if r.2 = none then
      refresh_loop hashFn scrape idOf tsOf (i + 1) rest r.1 success_count
        dup_count (errs ++ [url])
    else if r.2 = some "duplicate" then
      refresh_loop hashFn scrape idOf tsOf (i + 1) rest r.1 success_count
        (dup_count + 1) errs
    else
      refresh_loop hashFn scrape idOf tsOf (i + 1) rest r.1 (success_count + 1)
        dup_count errs

/-- `refresh_knowledge_base_no_cache` (app.py:486-523).  `sitemap_urls` is
what `scraper.get_sitemap_urls()` returned; the `if not urls` fallback and
the loop follow the code; the initial tallies are zero. -/
def refresh_knowledge_base_no_cache (hashFn : String → String)
    (scrape : String → PageData) (idOf : Nat → String) (tsOf : Nat → Int)
    (sitemap_urls : List String) (store : List KBEntry) :
    List KBEntry × RefreshOutcome :=
  let urls := if sitemap_urls.isEmpty then _get_fallback_urls else sitemap_urls
  refresh_loop hashFn scrape idOf tsOf 0 urls store 0 0 []

/-- `load_enhanced_knowledge_base` (app.py:429-452): query the active rows;
if that came back empty, run `refresh_knowledge_base_no_cache` synchronously
and re-query; return the items and (for the model) the resulting store. -/
def load_enhanced_knowledge_base (hashFn : String → String)
    (scrape : String → PageData) (idOf : Nat → String) (tsOf : Nat → Int)
    (sitemap_urls : List String) (store : List KBEntry) :
    List KBItem × List KBEntry :=
  let db_knowledge := get_knowledge_base store 100
  if db_knowledge.isEmpty then
    let store2 :=
      (refresh_knowledge_base_no_cache hashFn scrape idOf tsOf sitemap_urls
        store).1
    (get_knowledge_base store2 100, store2)
  else
    (db_knowledge, store)

/-- The gate of the refresh loop (app.py:502) as a predicate on a scrape
oracle and a URL. -/
def PassesGate (scrape : String → PageData) (url : String) : Prop :=
  (scrape url).success = true ∧ (scrape url).content.length > 100

/-- Scenario URL A (page with valid content). -/
def urlA : String := "https://www.rmit.edu.au/students/pageA"

/-- Scenario URL B (page whose fetch times out). -/
def urlB : String := "https://www.rmit.edu.au/students/pageB"

/-- Scenario URL C (page whose extracted content equals A's). -/
def urlC : String := "https://www.rmit.edu.au/students/pageC"

/-- A normalized content of 101 characters (exceeds the 100-character gate). -/
def contentA : String := String.mk (List.replicate 101 'a')

/-- A normalized content of 99 characters (below the 100-character gate). -/
def content99 : String := String.mk (List.replicate 99 'a')

/-- A normalized content of exactly 101 characters, named for the gate
boundary. -/
def content101 : String := contentA

/-- Fetch-and-extract oracle of the three-URL scenario: A extracts
`contentA`, B times out, C extracts content identical to A's. -/
def fetchScenario : String → Except FetchErr (String × String) := fun u =>
  if u = urlA then .ok ("Page A", contentA)
  else if u = urlB then .error .timeout
  else if u = urlC then .ok ("Page C", contentA)
  else .error .connection

/-- Concrete stand-in for the `uuid.uuid4()` supply in closed scenarios. -/
def idsScenario : Nat → String
  | 0 => "kb-0"
  | 1 => "kb-1"
  | 2 => "kb-2"
  | _ => "kb-more"

/-- Concrete stand-in for the `CURRENT_TIMESTAMP` supply in closed
scenarios. -/
def tssScenario : Nat → Int
  | 0 => 0
  | 1 => 1
  | 2 => 2
  | _ => 99

/-- A scrape oracle whose every page fails (used by closed witnesses). -/
def scrapeFailAll : String → PageData :=
  fun u => { url := u, title := "T", content := "", success := false }

/-! ## Decidability for the gate predicate -/

instance (scrape : String → PageData) (url : String) :
    Decidable (PassesGate scrape url) :=
  inferInstanceAs (Decidable (_ ∧ _))

/-! ## C2: staleness scheduling -/

/-- C2: `should_refresh_knowledge` returns true when the store query raised,
true when the active set is empty (the MAX is NULL), true when the newest
active timestamp fails both parsing attempts, and otherwise true exactly when
strictly more than 6 hours have elapsed since it; a timestamp exactly at the
6-hour boundary is not yet due. -/
theorem should_refresh_knowledge_cases (now t : Int) :
    should_refresh_knowledge (.error ()) now = true ∧
    should_refresh_knowledge (.ok none) now = true ∧
    should_refresh_knowledge (.ok (some .garbage)) now = true ∧
    (should_refresh_knowledge (.ok (some (.parsed t))) now = true ↔
      now - t > 6 * 3600) ∧
    should_refresh_knowledge (.ok (some (.parsed (now - 6 * 3600)))) now
      = false := by
  refine ⟨rfl, rfl, rfl, ?_, ?_⟩
  · simp [should_refresh_knowledge]
  · simp [should_refresh_knowledge]

/-! ## C1: the at-most-one-active-row-per-hash invariant -/

theorem save_duplicate (hashFn : String → String) (kb_id : String) (ts : Int)
    (st su ti co : String) (store : List KBEntry)
    (h : hasActiveHash store (hashFn co) = true) :
    save_knowledge_item hashFn kb_id ts st su ti co store = ("duplicate", store) := by
  simp [save_knowledge_item, h]

theorem save_fresh (hashFn : String → String) (kb_id : String) (ts : Int)
    (st su ti co : String) (store : List KBEntry)
    (h : hasActiveHash store (hashFn co) = false) :
    save_knowledge_item hashFn kb_id ts st su ti co store =
      (kb_id,
       store ++ [{ kb_id := kb_id, source_type := st, source_url := su,
                   title := ti, content := co, last_updated := ts,
                   content_hash := hashFn co, is_active := true }]) := by
  simp [save_knowledge_item, h]

theorem save_preserves_unique (hashFn : String → String) (kb_id : String)
    (ts : Int) (st su ti co : String) (store : List KBEntry)
    (h : UniqueActiveHash store) :
    UniqueActiveHash
      (save_knowledge_item hashFn kb_id ts st su ti co store).2 := by
  cases hd : hasActiveHash store (hashFn co) with
  | true => rw [save_duplicate hashFn kb_id ts st su ti co store hd]; exact h
  | false =>
    rw [save_fresh hashFn kb_id ts st su ti co store hd]
    rw [UniqueActiveHash, List.pairwise_append]
    refine ⟨h, List.pairwise_singleton _ _, ?_⟩
    intro a ha b hb
    simp only [List.mem_singleton] at hb
    subst hb
    rintro ⟨haact, -, hhash⟩
    have hmem : hasActiveHash store (hashFn co) = true := by
      unfold hasActiveHash
      rw [List.any_eq_true]
      refine ⟨a, ha, ?_⟩
      simp only at hhash
      simp [hhash, haact]
    rw [hmem] at hd
    exact Bool.true_eq_false.mp hd

theorem applySaves_unique (hashFn : String → String) :
    ∀ (reqs : List SaveReq) (store : List KBEntry), UniqueActiveHash store →
      UniqueActiveHash (applySaves hashFn reqs store)
  | [], _, h => h
  | r :: rs, store, h =>
    applySaves_unique hashFn rs _
      (save_preserves_unique hashFn r.kb_id r.ts r.source_type r.source_url
        r.title r.content store h)

/-- C1: every sequence of `save_knowledge_item` calls keeps the invariant
that at most one active row exists for a given content hash; in particular
two calls with byte-identical content (from any two URLs) leave exactly one
active row, the second call returning `"duplicate"` and writing nothing. -/
theorem save_knowledge_item_active_unique :
    (∀ (hashFn : String → String) (reqs : List SaveReq),
       UniqueActiveHash (applySaves hashFn reqs [])) ∧
    (∀ (hashFn : String → String) (r1 r2 : SaveReq), r1.content = r2.content →
       let p1 := applySaves hashFn [r1] []
       let p2 := save_knowledge_item hashFn r2.kb_id r2.ts r2.source_type
         r2.source_url r2.title r2.content p1
       p2.1 = "duplicate" ∧ p2.2 = p1 ∧
       (p1.filter (fun e => e.is_active)).length = 1) := by
  constructor
  · intro hashFn reqs
    exact applySaves_unique hashFn reqs [] List.Pairwise.nil
  · intro hashFn r1 r2 hc
    simp only [applySaves, List.foldl_cons, List.foldl_nil]
    simp [save_knowledge_item, hasActiveHash, ← hc]

/-- Witness for C1 at concrete inputs: two saves of the same content from two
different URLs. -/
theorem save_knowledge_item_active_unique_witness :
    (let p1 := applySaves (fun s => s)
       [⟨"id-1", 0, "web", "https://u1", "t1", "same content"⟩] []
     let p2 := save_knowledge_item (fun s => s) "id-2" 1 "web" "https://u2"
       "t2" "same content" p1
     p2.1 = "duplicate" ∧ p2.2 = p1 ∧
     (p1.filter (fun e => e.is_active)).length = 1) :=
  save_knowledge_item_active_unique.2 (fun s => s)
    ⟨"id-1", 0, "web", "https://u1", "t1", "same content"⟩
    ⟨"id-2", 1, "web", "https://u2", "t2", "same content"⟩ rfl

/-! ## C3: the 100-character extraction gate -/

theorem process_url_skip (hashFn : String → String) (scrape : String → PageData)
    (kb_id : String) (ts : Int) (url : String) (store : List KBEntry)
    (h : ¬PassesGate scrape url) :
    process_url hashFn scrape kb_id ts url store = (store, none) := by
  rw [PassesGate] at h
  simp [process_url, h]

theorem process_url_gate (hashFn : String → String) (scrape : String → PageData)
    (kb_id : String) (ts : Int) (url : String) (store : List KBEntry)
    (h : PassesGate scrape url) :
    process_url hashFn scrape kb_id ts url store =
      ((save_knowledge_item hashFn kb_id ts "web" (scrape url).url
          (scrape url).title (scrape url).content store).2,
       some (save_knowledge_item hashFn kb_id ts "web" (scrape url).url
          (scrape url).title (scrape url).content store).1) := by
  rw [PassesGate] at h
  simp [process_url, h]

theorem process_url_snd_ne_none (hashFn : String → String)
    (scrape : String → PageData) (kb_id : String) (ts : Int) (url : String)
    (store : List KBEntry) :
    (process_url hashFn scrape kb_id ts url store).2 ≠ none ↔
      PassesGate scrape url := by
  by_cases h : PassesGate scrape url
  · rw [process_url_gate hashFn scrape kb_id ts url store h]
    simp [h]
  · rw [process_url_skip hashFn scrape kb_id ts url store h]
    simp [h]

/-- C3: in the refresh loop a page's content is passed to the store exactly
when extraction succeeded and the extracted content is strictly longer than
100 characters, and a page failing the gate leaves the store untouched;
concretely, on an empty store a successfully extracted 99-character page is
skipped while a 101-character one is inserted as a new active row. -/
theorem refresh_extraction_gate :
    (∀ (hashFn : String → String) (scrape : String → PageData)
       (kb_id : String) (ts : Int) (url : String) (store : List KBEntry),
       ((process_url hashFn scrape kb_id ts url store).2 ≠ none ↔
          PassesGate scrape url) ∧
       (¬PassesGate scrape url →
          (process_url hashFn scrape kb_id ts url store).1 = store)) ∧
    (∀ (hashFn : String → String) (kb_id : String) (ts : Int) (url : String),
       (process_url hashFn
           (fun u => { url := u, title := "T", content := content99,
                       success := true }) kb_id ts url []).1 = [] ∧
       (process_url hashFn
           (fun u => { url := u, title := "T", content := content101,
                       success := true }) kb_id ts url []).1 =
         [{ kb_id := kb_id, source_type := "web", source_url := url,
            title := "T", content := content101, last_updated := ts,
            content_hash := hashFn content101, is_active := true }]) := by
  constructor
  · intro hashFn scrape kb_id ts url store
    refine ⟨process_url_snd_ne_none hashFn scrape kb_id ts url store, ?_⟩
    intro h
    rw [process_url_skip hashFn scrape kb_id ts url store h]
  · intro hashFn kb_id ts url
    have h99 : content99.length = 99 := by decide
    have h101 : content101.length = 101 := by decide
    constructor
    · simp [process_url, h99]
    · simp [process_url, h101, save_knowledge_item, hasActiveHash]

/-- Witness for C3 at a concrete skipped page: the store stays empty. -/
theorem refresh_extraction_gate_witness :
    (process_url (fun s => s) scrapeFailAll "id-0" 0 "https://u" []).1 = [] :=
  (refresh_extraction_gate.1 (fun s => s) scrapeFailAll "id-0" 0 "https://u"
    []).2 (by decide)

/-! ## C7: per-URL failures never abort the run -/

theorem refresh_loop_cons_skip (hashFn : String → String)
    (scrape : String → PageData) (idOf : Nat → String) (tsOf : Nat → Int)
    (i : Nat) (url : String) (rest : List String) (store : List KBEntry)
    (sc dc : Nat) (errs : List String) (h : ¬PassesGate scrape url) :
    refresh_loop hashFn scrape idOf tsOf i (url :: rest) store sc dc errs =
      refresh_loop hashFn scrape idOf tsOf (i + 1) rest store sc dc
        (errs ++ [url]) := by
  rw [refresh_loop, process_url_skip hashFn scrape (idOf i) (tsOf i) url store h]
  simp

theorem refresh_loop_cons_gate (hashFn : String → String)
    (scrape : String → PageData) (idOf : Nat → String) (tsOf : Nat → Int)
    (i : Nat) (url : String) (rest : List String) (store : List KBEntry)
    (sc dc : Nat) (errs : List String) (h : PassesGate scrape url) :
    refresh_loop hashFn scrape idOf tsOf i (url :: rest) store sc dc errs =
      (if (save_knowledge_item hashFn (idOf i) (tsOf i) "web" (scrape url).url
            (scrape url).title (scrape url).content store).1 = "duplicate" then
        refresh_loop hashFn scrape idOf tsOf (i + 1) rest
          (save_knowledge_item hashFn (idOf i) (tsOf i) "web" (scrape url).url
            (scrape url).title (scrape url).content store).2 sc (dc + 1) errs
      else
        refresh_loop hashFn scrape idOf tsOf (i + 1) rest
          (save_knowledge_item hashFn (idOf i) (tsOf i) "web" (scrape url).url
            (scrape url).title (scrape url).content store).2 (sc + 1) dc
          errs) := by
  rw [refresh_loop, process_url_gate hashFn scrape (idOf i) (tsOf i) url store h]
  by_cases hd : (save_knowledge_item hashFn (idOf i) (tsOf i) "web"
      (scrape url).url (scrape url).title (scrape url).content store).1
      = "duplicate" <;>
    simp [hd]

theorem refresh_loop_tallies (hashFn : String → String)
    (scrape : String → PageData) (idOf : Nat → String) (tsOf : Nat → Int)
    (urls : List String) :
    ∀ (i : Nat) (store : List KBEntry) (sc dc : Nat) (errs : List String),
      (refresh_loop hashFn scrape idOf tsOf i urls store sc dc
          errs).2.urlsConsidered = i + urls.length ∧
      (refresh_loop hashFn scrape idOf tsOf i urls store sc dc
            errs).2.itemsAdded
          + (refresh_loop hashFn scrape idOf tsOf i urls store sc dc
              errs).2.itemsDuplicate
          + (refresh_loop hashFn scrape idOf tsOf i urls store sc dc
              errs).2.errors.length
        = sc + dc + errs.length + urls.length ∧
      (∀ u, u ∈ errs →
        u ∈ (refresh_loop hashFn scrape idOf tsOf i urls store sc dc
              errs).2.errors) ∧
      (∀ u, u ∈ urls → ¬PassesGate scrape u →
        u ∈ (refresh_loop hashFn scrape idOf tsOf i urls store sc dc
              errs).2.errors) := by
  induction urls with
  | nil =>
    intro i store sc dc errs
    refine ⟨by simp [refresh_loop], by simp [refresh_loop], ?_, ?_⟩
    · intro u hu
      simpa [refresh_loop] using hu
    · intro u hu
      simp at hu
  | cons url rest ih =>
    intro i store sc dc errs
    by_cases hg : PassesGate scrape url
    · rw [refresh_loop_cons_gate hashFn scrape idOf tsOf i url rest store sc dc
        errs hg]
      by_cases hd : (save_knowledge_item hashFn (idOf i) (tsOf i) "web"
          (scrape url).url (scrape url).title (scrape url).content store).1
          = "duplicate"
      · rw [if_pos hd]
        obtain ⟨h1, h2, h3, h4⟩ := ih (i + 1) _ sc (dc + 1) errs
        refine ⟨by rw [h1]; simp; omega, by rw [h2, List.length_cons]; omega,
          h3, ?_⟩
        intro u hu hng
        rcases List.mem_cons.mp hu with rfl | hu2
        · exact absurd hg hng
        · exact h4 u hu2 hng
      · rw [if_neg hd]
        obtain ⟨h1, h2, h3, h4⟩ := ih (i + 1) _ (sc + 1) dc errs
        refine ⟨by rw [h1]; simp; omega, by rw [h2, List.length_cons]; omega,
          h3, ?_⟩
        intro u hu hng
        rcases List.mem_cons.mp hu with rfl | hu2
        · exact absurd hg hng
        · exact h4 u hu2 hng
    · rw [refresh_loop_cons_skip hashFn scrape idOf tsOf i url rest store sc dc
        errs hg]
      obtain ⟨h1, h2, h3, h4⟩ := ih (i + 1) store sc dc (errs ++ [url])
      refine ⟨by rw [h1]; simp; omega, by rw [h2]; simp; omega, ?_, ?_⟩
      · intro u hu
        exact h3 u (List.mem_append_left _ hu)
      · intro u hu hng
        rcases List.mem_cons.mp hu with rfl | hu2
        · exact h3 u (List.mem_append_right _ (List.mem_singleton.mpr rfl))
        · exact h4 u hu2 hng

/-- C7: the refresh run iterates over every candidate URL and terminates with
an aggregate in which every URL is tallied exactly once (added, duplicate, or
skipped), and every URL whose page fails the fetch-extract gate is recorded
as a skip — one page's failure never aborts the batch (the model's totality
mirrors the loop's `except: continue`). -/
theorem refresh_run_never_aborts (hashFn : String → String)
    (scrape : String → PageData) (idOf : Nat → String) (tsOf : Nat → Int)
    (sitemap_urls : List String) (store : List KBEntry) :
    (refresh_knowledge_base_no_cache hashFn scrape idOf tsOf sitemap_urls
        store).2.urlsConsidered
      = (if sitemap_urls.isEmpty then _get_fallback_urls else
          sitemap_urls).length ∧
    (refresh_knowledge_base_no_cache hashFn scrape idOf tsOf sitemap_urls
          store).2.itemsAdded
        + (refresh_knowledge_base_no_cache hashFn scrape idOf tsOf sitemap_urls
            store).2.itemsDuplicate
        + (refresh_knowledge_base_no_cache hashFn scrape idOf tsOf sitemap_urls
            store).2.errors.length
      = (if sitemap_urls.isEmpty then _get_fallback_urls else
          sitemap_urls).length ∧
    (∀ u, u ∈ (if sitemap_urls.isEmpty then _get_fallback_urls else
        sitemap_urls) → ¬PassesGate scrape u →
      u ∈ (refresh_knowledge_base_no_cache hashFn scrape idOf tsOf sitemap_urls
            store).2.errors) := by
  obtain ⟨h1, h2, h3, h4⟩ := refresh_loop_tallies hashFn scrape idOf tsOf
    (if sitemap_urls.isEmpty then _get_fallback_urls else sitemap_urls) 0
    store 0 0 []
  refine ⟨?_, ?_, ?_⟩
  · simpa [refresh_knowledge_base_no_cache] using h1
  · simpa [refresh_knowledge_base_no_cache] using h2
  · intro u hu hng
    simpa [refresh_knowledge_base_no_cache] using h4 u hu hng

/-- Witness for C7: a run over one URL whose page fails records that URL as a
skip. -/
theorem refresh_run_never_aborts_witness :
    "https://u1" ∈ (refresh_knowledge_base_no_cache (fun s => s) scrapeFailAll
        idsScenario tssScenario ["https://u1"] []).2.errors :=
  (refresh_run_never_aborts (fun s => s) scrapeFailAll idsScenario tssScenario
      ["https://u1"] []).2.2 "https://u1" (by decide) (by decide)

/-! ## C4: a second identical run adds nothing -/

theorem save_snd_append (hashFn : String → String) (kb_id : String) (ts : Int)
    (st su ti co : String) (store : List KBEntry) :
    ∃ ext, (save_knowledge_item hashFn kb_id ts st su ti co store).2
      = store ++ ext := by
  cases hd : hasActiveHash store (hashFn co) with
  | true =>
    exact ⟨[], by rw [save_duplicate hashFn kb_id ts st su ti co store hd]; simp⟩
  | false =>
    exact ⟨_, by rw [save_fresh hashFn kb_id ts st su ti co store hd]⟩

theorem refresh_loop_fst_append (hashFn : String → String)
    (scrape : String → PageData) (idOf : Nat → String) (tsOf : Nat → Int)
    (urls : List String) :
    ∀ (i : Nat) (store : List KBEntry) (sc dc : Nat) (errs : List String),
      ∃ ext, (refresh_loop hashFn scrape idOf tsOf i urls store sc dc errs).1
        = store ++ ext := by
  induction urls with
  | nil =>
    intro i store sc dc errs
    exact ⟨[], by simp [refresh_loop]⟩
  | cons url rest ih =>
    intro i store sc dc errs
    by_cases hg : PassesGate scrape url
    · rw [refresh_loop_cons_gate hashFn scrape idOf tsOf i url rest store sc dc
        errs hg]
      by_cases hd : (save_knowledge_item hashFn (idOf i) (tsOf i) "web"
          (scrape url).url (scrape url).title (scrape url).content store).1
          = "duplicate"
      · rw [if_pos hd]
        obtain ⟨ext1, he1⟩ := save_snd_append hashFn (idOf i) (tsOf i) "web"
          (scrape url).url (scrape url).title (scrape url).content store
        obtain ⟨ext2, he2⟩ := ih (i + 1) _ sc (dc + 1) errs
        exact ⟨ext1 ++ ext2, by rw [he2, he1, List.append_assoc]⟩
      · rw [if_neg hd]
        obtain ⟨ext1, he1⟩ := save_snd_append hashFn (idOf i) (tsOf i) "web"
          (scrape url).url (scrape url).title (scrape url).content store
        obtain ⟨ext2, he2⟩ := ih (i + 1) _ (sc + 1) dc errs
        exact ⟨ext1 ++ ext2, by rw [he2, he1, List.append_assoc]⟩
    · rw [refresh_loop_cons_skip hashFn scrape idOf tsOf i url rest store sc dc
        errs hg]
      exact ih (i + 1) store sc dc (errs ++ [url])

theorem hasActiveHash_append (store ext : List KBEntry) (h : String)
    (hh : hasActiveHash store h = true) :
    hasActiveHash (store ++ ext) h = true := by
  unfold hasActiveHash at hh ⊢
  rw [List.any_eq_true] at hh ⊢
  obtain ⟨e, he, hp⟩ := hh
  exact ⟨e, List.mem_append_left _ he, hp⟩

theorem hasActiveHash_save (hashFn : String → String) (kb_id : String)
    (ts : Int) (st su ti co : String) (store : List KBEntry) :
    hasActiveHash (save_knowledge_item hashFn kb_id ts st su ti co store).2
      (hashFn co) = true := by
  cases hd : hasActiveHash store (hashFn co) with
  | true => rw [save_duplicate hashFn kb_id ts st su ti co store hd]; exact hd
  | false =>
    rw [save_fresh hashFn kb_id ts st su ti co store hd]
    unfold hasActiveHash
    rw [List.any_eq_true]
    refine ⟨_, List.mem_append_right _ (List.mem_singleton.mpr rfl), ?_⟩
    simp

theorem refresh_loop_covers (hashFn : String → String)
    (scrape : String → PageData) (idOf : Nat → String) (tsOf : Nat → Int)
    (urls : List String) :
    ∀ (i : Nat) (store : List KBEntry) (sc dc : Nat) (errs : List String)
      (u : String), u ∈ urls → PassesGate scrape u →
      hasActiveHash
        (refresh_loop hashFn scrape idOf tsOf i urls store sc dc errs).1
        (hashFn (scrape u).content) = true := by
  induction urls with
  | nil =>
    intro i store sc dc errs u hu
    simp at hu
  | cons url rest ih =>
    intro i store sc dc errs u hu hg
    by_cases hgu : PassesGate scrape url
    · rw [refresh_loop_cons_gate hashFn scrape idOf tsOf i url rest store sc dc
        errs hgu]
      by_cases hd : (save_knowledge_item hashFn (idOf i) (tsOf i) "web"
          (scrape url).url (scrape url).title (scrape url).content store).1
          = "duplicate"
      · rw [if_pos hd]
        rcases List.mem_cons.mp hu with rfl | hu2
        · obtain ⟨ext, hext⟩ := refresh_loop_fst_append hashFn scrape idOf tsOf
            rest (i + 1) _ sc (dc + 1) errs
          rw [hext]
          exact hasActiveHash_append _ _ _ (hasActiveHash_save hashFn (idOf i)
            (tsOf i) "web" (scrape u).url (scrape u).title (scrape u).content
            store)
        · exact ih (i + 1) _ sc (dc + 1) errs u hu2 hg
      · rw [if_neg hd]
        rcases List.mem_cons.mp hu with rfl | hu2
        · obtain ⟨ext, hext⟩ := refresh_loop_fst_append hashFn scrape idOf tsOf
            rest (i + 1) _ (sc + 1) dc errs
          rw [hext]
          exact hasActiveHash_append _ _ _ (hasActiveHash_save hashFn (idOf i)
            (tsOf i) "web" (scrape u).url (scrape u).title (scrape u).content
            store)
        · exact ih (i + 1) _ (sc + 1) dc errs u hu2 hg
    · rw [refresh_loop_cons_skip hashFn scrape idOf tsOf i url rest store sc dc
        errs hgu]
      rcases List.mem_cons.mp hu with rfl | hu2
      · exact absurd hg hgu
      · exact ih (i + 1) store sc dc (errs ++ [url]) u hu2 hg

theorem refresh_loop_stable (hashFn : String → String)
    (scrape : String → PageData) (idOf : Nat → String) (tsOf : Nat → Int)
    (urls : List String) :
    ∀ (i : Nat) (store : List KBEntry) (sc dc : Nat) (errs : List String),
      (∀ u, u ∈ urls → PassesGate scrape u →
        hasActiveHash store (hashFn (scrape u).content) = true) →
      (refresh_loop hashFn scrape idOf tsOf i urls store sc dc errs).1 = store ∧
      (refresh_loop hashFn scrape idOf tsOf i urls store sc dc
          errs).2.itemsAdded = sc := by
  induction urls with
  | nil =>
    intro i store sc dc errs _
    exact ⟨rfl, rfl⟩
  | cons url rest ih =>
    intro i store sc dc errs hcov
    by_cases hg : PassesGate scrape url
    · have hh : hasActiveHash store (hashFn (scrape url).content) = true :=
        hcov url (List.mem_cons_self _ _) hg
      rw [refresh_loop_cons_gate hashFn scrape idOf tsOf i url rest store sc dc
        errs hg]
      rw [save_duplicate hashFn (idOf i) (tsOf i) "web" (scrape url).url
        (scrape url).title (scrape url).content store hh]
      simp only [if_pos]
      exact ih (i + 1) store sc (dc + 1) errs
        (fun u hu hgu => hcov u (List.mem_cons_of_mem _ hu) hgu)
    · rw [refresh_loop_cons_skip hashFn scrape idOf tsOf i url rest store sc dc
        errs hg]
      exact ih (i + 1) store sc dc (errs ++ [url])
        (fun u hu hgu => hcov u (List.mem_cons_of_mem _ hu) hgu)

/-- C4: running the refresh a second time over pages whose extracted content
is identical to the first run's (same scrape oracle, arbitrary fresh ids and
timestamps) adds zero items — every save returns `"duplicate"` — and leaves
the store, hence its active set, exactly as the first run left it. -/
theorem refresh_run_idempotent (hashFn : String → String)
    (scrape : String → PageData) (id1 id2 : Nat → String) (ts1 ts2 : Nat → Int)
    (sitemap_urls : List String) (store0 : List KBEntry) :
    (refresh_knowledge_base_no_cache hashFn scrape id2 ts2 sitemap_urls
        (refresh_knowledge_base_no_cache hashFn scrape id1 ts1 sitemap_urls
          store0).1).1
      = (refresh_knowledge_base_no_cache hashFn scrape id1 ts1 sitemap_urls
          store0).1 ∧
    (refresh_knowledge_base_no_cache hashFn scrape id2 ts2 sitemap_urls
        (refresh_knowledge_base_no_cache hashFn scrape id1 ts1 sitemap_urls
          store0).1).2.itemsAdded = 0 := by
  unfold refresh_knowledge_base_no_cache
  exact refresh_loop_stable hashFn scrape id2 ts2 _ 0 _ 0 0 []
    (fun u hu hg =>
      refresh_loop_covers hashFn scrape id1 ts1 _ 0 store0 0 0 [] u hu hg)

/-! ## C5 and C8: sitemap resolution and keyword filtering -/

theorem foldl_filter_append (p : String → Bool) :
    ∀ (l acc : List String),
      l.foldl (fun acc url => if p url then acc ++ [url] else acc) acc
        = acc ++ l.filter p
  | [], acc => by simp
  | x :: xs, acc => by
    by_cases h : p x
    · rw [List.foldl_cons, if_pos h, foldl_filter_append p xs (acc ++ [x]),
        List.filter_cons_of_pos h, List.append_assoc]
      simp
    · rw [List.foldl_cons, if_neg h, foldl_filter_append p xs acc,
        List.filter_cons_of_neg h]

theorem filter_urls_eq (all_urls keywords : List String) :
    _filter_urls all_urls keywords =
      (if (all_urls.filter (fun url =>
            (if keywords.isEmpty then default_keywords else keywords).any
              (fun k => strIncl k (lower url)))).isEmpty then
        _get_fallback_urls
      else
        (all_urls.filter (fun url =>
          (if keywords.isEmpty then default_keywords else keywords).any
            (fun k => strIncl k (lower url)))).take 10) := by
  unfold _filter_urls
  simp only [foldl_filter_append, List.nil_append]

theorem filter_urls_ne_nil (all_urls keywords : List String) :
    _filter_urls all_urls keywords ≠ [] := by
  rw [filter_urls_eq]
  by_cases h : (all_urls.filter (fun url =>
      (if keywords.isEmpty then default_keywords else keywords).any
        (fun k => strIncl k (lower url)))).isEmpty
  · rw [if_pos h]
    decide
  · rw [if_neg h]
    cases hm : all_urls.filter (fun url =>
        (if keywords.isEmpty then default_keywords else keywords).any
          (fun k => strIncl k (lower url))) with
    | nil => rw [hm] at h; exact absurd rfl h
    | cons a l => simp [hm]

/-- C5: `get_sitemap_urls` never propagates an error and never returns an
empty list: any fetch/HTTP failure (500 included) yields the fixed fallback
list, a parse result whose keyword filter matches nothing yields the fallback
list, and the fallback list itself is not empty. -/
theorem get_sitemap_urls_never_empty (fetch : Except FetchErr (List String))
    (keywords : List String) :
    get_sitemap_urls fetch keywords ≠ [] ∧
    (∀ e : FetchErr,
      get_sitemap_urls (.error e) keywords = _get_fallback_urls) ∧
    get_sitemap_urls (.error (.httpStatus 500)) keywords
      = _get_fallback_urls ∧
    (∀ all_urls : List String,
      all_urls.filter (fun url =>
          (if keywords.isEmpty then default_keywords else keywords).any
            (fun k => strIncl k (lower url))) = [] →
      get_sitemap_urls (.ok all_urls) keywords = _get_fallback_urls) ∧
    _get_fallback_urls ≠ [] := by
  refine ⟨?_, fun e => rfl, rfl, ?_, by decide⟩
  · cases fetch with
    | error e =>
      show _get_fallback_urls ≠ []
      decide
    | ok l => exact filter_urls_ne_nil l keywords
  · intro all_urls h
    show _filter_urls all_urls keywords = _get_fallback_urls
    rw [filter_urls_eq, h]
    simp

/-- Witness for C5: a parse result whose single URL matches no keyword
resolves to the fallback list. -/
theorem get_sitemap_urls_never_empty_witness :
    get_sitemap_urls (.ok ["https://www.rmit.edu.au/zzz"]) ["qqq"]
      = _get_fallback_urls :=
  (get_sitemap_urls_never_empty (.ok ["https://www.rmit.edu.au/zzz"])
      ["qqq"]).2.2.2.1 ["https://www.rmit.edu.au/zzz"] (by decide)

/-- C8 counterexample: with the upper-case keyword `"STUDENT"` and one URL
that case-insensitively contains it, `_filter_urls` keeps nothing — the code
tests the keyword verbatim against the lowercased URL — and instead returns
the fallback list, whose entries are not the matching URL; so neither
direction of the claimed iff, nor the claimed truncation of matches, holds
for every keyword set. -/
theorem filter_urls_case_sensitive_cex :
    strIncl (lower "STUDENT") (lower "https://www.rmit.edu.au/student-life")
      = true ∧
    _filter_urls ["https://www.rmit.edu.au/student-life"] ["STUDENT"]
      = _get_fallback_urls ∧
    ¬("https://www.rmit.edu.au/student-life" ∈ _get_fallback_urls) := by
  decide

/-- C8 amended: a URL is kept iff its lowercased text contains one of the
configured keywords verbatim (so only case-insensitive when the keywords are
lowercase, as the defaults are; an empty keyword set means the default set);
when at least one URL matches, the result is the first 10 matches in source
order, and when none matches the fixed fallback list is returned instead of
the empty truncation. -/
theorem filter_urls_amended (all_urls keywords : List String) :
    _filter_urls all_urls keywords =
      (if (all_urls.filter (fun url =>
            (if keywords.isEmpty then default_keywords else keywords).any
              (fun k => strIncl k (lower url)))).isEmpty then
        _get_fallback_urls
      else
        (all_urls.filter (fun url =>
          (if keywords.isEmpty then default_keywords else keywords).any
            (fun k => strIncl k (lower url)))).take 10) :=
  filter_urls_eq all_urls keywords

/-! ## C9: error causes are collapsed, not surfaced -/

/-- C9 counterexample: a timeout, an HTTP 500 rejection, a connection failure
and even a successful fetch whose parse matched nothing all make
`get_sitemap_urls` return the very same value, so its caller cannot tell
"timed out" from "rejected" from "unreachable" (nor from a degraded
success). -/
theorem fetch_error_collapse_cex :
    FetchErr.timeout ≠ FetchErr.httpStatus 500 ∧
    get_sitemap_urls (Except.error FetchErr.timeout) [] =
      get_sitemap_urls (Except.error (FetchErr.httpStatus 500)) [] ∧
    get_sitemap_urls (Except.error FetchErr.connection) [] =
      get_sitemap_urls (Except.error FetchErr.timeout) [] ∧
    get_sitemap_urls (Except.error FetchErr.timeout) [] =
      get_sitemap_urls (Except.ok ([] : List String)) [] := by
  decide

/-- C9 amended: a failing page fetch is surfaced to the refresh loop only as
a `success = false` page whose title and content embed the exception's
message text (causes are distinguishable only insofar as those strings
differ), and a failing sitemap fetch is silently collapsed to the fixed
fallback list whatever its cause was. -/
theorem fetch_error_surface_amended (e : FetchErr) (url : String)
    (keywords : List String)
    (fetch : String → Except FetchErr (String × String))
    (h : fetch url = .error e) :
    (scrape_page fetch url).success = false ∧
    (scrape_page fetch url).title = "Error scraping " ++ url ∧
    (scrape_page fetch url).content = "Failed to scrape: " ++ e.msg ∧
    get_sitemap_urls (.error e) keywords = _get_fallback_urls := by
  refine ⟨?_, ?_, ?_, rfl⟩ <;> simp [scrape_page, h]

/-- Witness for C9's amended theorem at the scenario's timing-out URL. -/
theorem fetch_error_surface_amended_witness :
    (scrape_page fetchScenario urlB).success = false ∧
    (scrape_page fetchScenario urlB).title = "Error scraping " ++ urlB ∧
    (scrape_page fetchScenario urlB).content
      = "Failed to scrape: " ++ FetchErr.timeout.msg ∧
    get_sitemap_urls (.error FetchErr.timeout) [] = _get_fallback_urls :=
  fetch_error_surface_amended FetchErr.timeout urlB [] fetchScenario
    (by simp [fetchScenario, urlA, urlB])

/-! ## C6: the three-URL end-to-end scenario -/

/-- C6: in the three-URL scenario — page A extracts 101 characters of valid
content, page B times out, page C extracts content identical to A's — the
run considers 3 URLs, 2 pages pass the gate, 1 item is added
(the code's `success_count`), 1 save returns duplicate, 1 URL is skipped
(B's), and the store ends with exactly one active entry whose `source_url`
is A's URL, whatever hash function MD5 is. -/
theorem refresh_run_scenario (hashFn : String → String) :
    refresh_knowledge_base_no_cache hashFn (scrape_page fetchScenario)
        idsScenario tssScenario [urlA, urlB, urlC] [] =
      ([{ kb_id := "kb-0", source_type := "web", source_url := urlA,
          title := "Page A", content := contentA, last_updated := 0,
          content_hash := hashFn contentA, is_active := true }],
       { urlsConsidered := 3, urlsSucceeded := 2, itemsAdded := 1,
         itemsDuplicate := 1, errors := [urlB] }) := by
  have hlen : contentA.length = 101 := by decide
  have hBA : (urlB = urlA) = False := by decide
  have hCA : (urlC = urlA) = False := by decide
  have hCB : (urlC = urlB) = False := by decide
  simp [refresh_knowledge_base_no_cache, refresh_loop, process_url,
    save_knowledge_item, hasActiveHash, scrape_page, fetchScenario,
    idsScenario, tssScenario, hlen, hBA, hCA, hCB]

/-! ## C10: a read on an empty store runs the whole refresh -/

theorem insertDesc_ne_nil (e : KBEntry) : ∀ l : List KBEntry, insertDesc e l ≠ []
  | [] => by simp [insertDesc]
  | x :: xs => by
    unfold insertDesc
    by_cases h : e.last_updated ≥ x.last_updated <;> simp [h]

theorem sortDesc_eq_nil_iff : ∀ l : List KBEntry, sortDesc l = [] ↔ l = []
  | [] => by simp [sortDesc]
  | x :: xs => by simp [sortDesc, insertDesc_ne_nil]

theorem get_knowledge_base_empty_iff (store : List KBEntry) :
    get_knowledge_base store 100 = [] ↔
      store.filter (fun e => e.is_active) = [] := by
  unfold get_knowledge_base
  rw [List.map_eq_nil_iff, List.take_eq_nil_iff, sortDesc_eq_nil_iff]
  simp

/-- C10: `load_enhanced_knowledge_base` on a store with no active entries
synchronously runs the whole refresh and returns the active entries the
refresh produced; on a store with at least one active entry it is a plain
query that leaves the store alone. -/
theorem load_empty_triggers_refresh (hashFn : String → String)
    (scrape : String → PageData) (idOf : Nat → String) (tsOf : Nat → Int)
    (sitemap_urls : List String) (store : List KBEntry) :
    (store.filter (fun e => e.is_active) = [] →
      load_enhanced_knowledge_base hashFn scrape idOf tsOf sitemap_urls store =
        (get_knowledge_base
           (refresh_knowledge_base_no_cache hashFn scrape idOf tsOf
             sitemap_urls store).1 100,
         (refresh_knowledge_base_no_cache hashFn scrape idOf tsOf sitemap_urls
           store).1)) ∧
    (store.filter (fun e => e.is_active) ≠ [] →
      load_enhanced_knowledge_base hashFn scrape idOf tsOf sitemap_urls store =
        (get_knowledge_base store 100, store)) := by
  constructor <;> intro h
  · have he : (get_knowledge_base store 100).isEmpty = true :=
      List.isEmpty_iff.mpr ((get_knowledge_base_empty_iff store).mpr h)
    simp [load_enhanced_knowledge_base, he]
  · have he : ¬(get_knowledge_base store 100).isEmpty = true := by
      intro hc
      exact h ((get_knowledge_base_empty_iff store).mp (List.isEmpty_iff.mp hc))
    simp [load_enhanced_knowledge_base, he]

/-- Witness for C10: a load over the empty store runs the refresh and
returns its result. -/
theorem load_empty_triggers_refresh_witness :
    load_enhanced_knowledge_base (fun s => s) scrapeFailAll idsScenario
        tssScenario ["https://u1"] [] =
      (get_knowledge_base
         (refresh_knowledge_base_no_cache (fun s => s) scrapeFailAll
           idsScenario tssScenario ["https://u1"] []).1 100,
       (refresh_knowledge_base_no_cache (fun s => s) scrapeFailAll idsScenario
         tssScenario ["https://u1"] []).1) :=
  (load_empty_triggers_refresh (fun s => s) scrapeFailAll idsScenario
      tssScenario ["https://u1"] []).1 rfl
